import Mathlib

/-!
Shallow embedding of the stdnet fragment (search engine, structured fields,
exception taxonomy) and proofs about it.

The embedding follows `stdnet/apps/searchengine/__init__.py`,
`stdnet/orm/structfields.py` and `stdnet/exceptions.py`.  Collaborators that
are not part of the supplied sources (the `processors` module, the base
`Field` class, `words_from_text`, the session/query engine) are modelled from
the specification and marked as such in their doc comments.
-/

namespace StdNet

/-- A `Word` record of the search engine: its identity is the token text
itself, `tag` records whether it was ever promoted to tag usage. -/
structure Word where
  id : String
  tag : Bool
deriving DecidableEq, Repr

/-- A `WordItem` posting: one inverted-index entry linking a `Word` (by its
id) to a record instance given by model type and object id. -/
structure WordItem where
  word : String
  model_type : String
  object_id : Nat
  count : Nat
deriving DecidableEq, Repr

/-- Persistent state visible to the search operations: the stored `Word`
rows and the stored `WordItem` postings. -/
structure DB where
  words : List Word
  items : List WordItem
deriving DecidableEq, Repr

/-- Modelled from the spec: `processors.PUNCTUATION_CHARS` (the `processors`
module is not among the supplied sources), the default splitter character
set, "a built-in punctuation set" that includes at least the comma and the
exclamation mark. -/
def PUNCTUATION_CHARS : List Char := "!\"#$%&()*+,-./:;<=>?@[\\]^_|~".toList

/-- One step of Python `str.split()` over the character list, accumulating
the current chunk and the finished chunks; whitespace closes the current
chunk (empty chunks are dropped). -/
def pySplitStep (c : Char) (acc : List Char × List (List Char)) :
    List Char × List (List Char) :=
  if c.isWhitespace then
    if acc.1.isEmpty then acc else ([], acc.1 :: acc.2)
  else (c :: acc.1, acc.2)

/-- Python `str.split()` with no argument: split on whitespace runs,
producing only non-empty chunks, in order. -/
def pySplit (l : List Char) : List (List Char) :=
  let r := l.foldr pySplitStep ([], [])
  if r.1.isEmpty then r.2 else r.1 :: r.2

/-- Embedding of `SearchEngine.split_text` (text as its character
sequence): replace every splitter character by a space, split on whitespace,
keep a token only when its length is at least the minimum word length, and
lower-case the kept tokens, in order. -/
def split_text (splitters : List Char) (mwl : Nat) (text : List Char) :
    List String :=
  let replaced :=
    if splitters.isEmpty then text
    else text.map (fun c => if c ∈ splitters then ' ' else c)
  (pySplit replaced).filterMap
    (fun w => if mwl ≤ w.length then some (String.mk (w.map Char.toLower)) else none)

/-- Embedding of `SearchEngine.words`.  The token list `texts` stands for the
result of `words_from_text(text, for_search)` (defined outside the supplied
sources).  When the token list is empty the function falls through and
returns no value; otherwise it returns the stored words whose id is among
the tokens. -/
def words (db : DB) (texts : List String) : Option (List Word) :=
  if texts.isEmpty then none
  else some (db.words.filter (fun w => texts.contains w.id))

/-- The list of `Word` records matched by the token list, empty when the
search yields no value. -/
def matched (db : DB) (texts : List String) : List Word :=
  (words db texts).getD []

/-- A query over one model, interpreted by the set of object ids it
selects. -/
structure Query where
  model : String
  ids : Finset ℕ

/-- Errors a Python call can surface: a `NameError` from evaluating an
undefined name, or a `ValueError`. -/
inductive PyError
  | nameError (name : String)
  | valueError (msg : String)
deriving DecidableEq, Repr

/-- The id set produced by
`WordItem.objects.filter(model_type = m).filter(word = w).get_field(object_id)`:
object ids of stored postings for model `m` carrying word `w`. -/
def postings (db : DB) (m w : String) : Finset ℕ :=
  ((db.items.filter (fun wi => wi.model_type == m && wi.word == w)).map
    (fun wi => wi.object_id)).toFinset

/-- Modelled from the spec: `orm.intersect` (the query engine is not among
the supplied sources) combines a non-empty list of queries by set
intersection of their id sets. -/
def ormIntersect : List (Finset ℕ) → Finset ℕ
  | [] => ∅
  | s :: rest => rest.foldl (fun a b => a ∩ b) s

/-- Modelled from the spec: `orm.union` combines a non-empty list of queries
by set union of their id sets. -/
def ormUnion : List (Finset ℕ) → Finset ℕ
  | [] => ∅
  | s :: rest => rest.foldl (fun a b => a ∪ b) s

/-- Embedding of `SearchEngine.search_model`, returning the id set of the
resulting query.  `texts` stands for `words_from_text(text, for_search=True)`.
When no words resolve, the original query is returned; when tokens exist but
match no stored word, an empty query results; otherwise one sub-query per
matched word is built and, for more than one sub-query, combined by
intersection for lookup "in" and union for lookup "contains".  The
`raise valueError(...)` line of the source evaluates an undefined name, so
that branch surfaces a `NameError` naming `valueError`. -/
def search_model (db : DB) (q : Query) (texts : List String) (lookup : String) :
    Except PyError (Finset ℕ) :=
  match words db texts with
  | none => Except.ok q.ids
  | some ws =>
    if ws.isEmpty then Except.ok ∅
    else
      let qs := ws.map (fun w => postings db q.model w.id)
      if 1 < qs.length then
        if lookup = "in" then Except.ok (q.ids ∩ ormIntersect qs)
        else if lookup = "contains" then Except.ok (q.ids ∩ ormUnion qs)
        else Except.error (PyError.nameError "valueError")
      else Except.ok (q.ids ∩ qs.headD ∅)

/-- A concrete stored state: two words, four postings over model "M". -/
def dbEx : DB :=
  { words := [⟨"cat", false⟩, ⟨"dog", false⟩],
    items := [⟨"cat", "M", 1, 1⟩, ⟨"cat", "M", 2, 1⟩,
              ⟨"dog", "M", 2, 1⟩, ⟨"dog", "M", 3, 1⟩] }

/-- A concrete query over model "M" selecting ids 1, 2 and 3. -/
def qEx : Query := ⟨"M", {1, 2, 3}⟩

/-- Result of `SearchEngine.get_or_create`: the returned word, the stored
word rows after the call, and the session content after the call. -/
structure GocResult where
  word : Word
  db : List Word
  session : Option (List Word)
deriving DecidableEq, Repr

/-- Embedding of `SearchEngine.get_or_create`.  `Word.objects.get(id = word)`
finds the stored word with that id (`Word.DoesNotExist` when absent);
`save()` persists in place; `session.add` stages on the unit of work without
persisting. -/
def get_or_create (db : List Word) (session : Option (List Word))
    (wordId : String) (tag : Bool) : GocResult :=
  match db.find? (fun w => w.id == wordId) with
  | some w =>
    if tag && !w.tag then
      let w2 : Word := ⟨w.id, true⟩
      { word := w2,
        db := db.map (fun v => if v.id == wordId then w2 else v),
        session := session }
    else { word := w, db := db, session := session }
  | none =>
    let w : Word := ⟨wordId, tag⟩
    match session with
    | some s => { word := w, db := db, session := some (s ++ [w]) }
    | none => { word := w, db := db ++ [w], session := none }

/-- A record instance bound to a session, as the indexing operations see
it. -/
structure Item where
  model_type : String
  oid : Nat
deriving DecidableEq, Repr

/-- State threaded through the indexing operations: the persisted word rows,
the words staged on the unit of work, and the postings staged on the unit of
work.  The supplied unit of work and the item's bound session are modelled
as the same state. -/
structure EngineState where
  dbWords : List Word
  sessionWords : List Word
  sessionItems : List WordItem
deriving DecidableEq, Repr

/-- Embedding of `SearchEngine._link_item_and_word`: get-or-create the word
against the item's session, then construct — but do not stage — the
posting for the item. -/
def link_item_and_word (st : EngineState) (item : Item) (wordId : String)
    (count : Nat) (tag : Bool) : EngineState × WordItem :=
  let r := get_or_create st.dbWords (some st.sessionWords) wordId tag
  ({ st with dbWords := r.db, sessionWords := r.session.getD st.sessionWords },
   ⟨r.word.id, item.model_type, item.oid, count⟩)

/-- Embedding of `SearchEngine.add_tag`; `tokens` stands for
`words_from_text(text)` (defined outside the supplied sources).  For every
token the word is get-or-created with `tag = True` and no session argument,
then `_link_item_and_word` builds the posting; the postings are collected
and returned, never staged. -/
def add_tag (item : Item) : EngineState → List String → EngineState × List WordItem
  | st, [] => (st, [])
  | st, tok :: rest =>
    let r := get_or_create st.dbWords none tok true
    let p := link_item_and_word { st with dbWords := r.db } item r.word.id 1 false
    let restResult := add_tag item p.1 rest
    (restResult.1, p.2 :: restResult.2)

/-- Embedding of `SearchEngine.add_item`: for each word/count pair the
posting built by `_link_item_and_word` is added to the supplied unit of
work. -/
def add_item (item : Item) : EngineState → List (String × Nat) → EngineState
  | st, [] => st
  | st, wc :: rest =>
    let p := link_item_and_word st item wc.1 wc.2 false
    add_item item { p.1 with sessionItems := p.1.sessionItems ++ [p.2] } rest

/-- A remote structure handle: its backend key and the session it is bound
to. -/
structure Structure where
  key : String
  session : Option Nat
deriving DecidableEq, Repr

/-- A record instance as the structured-field proxy sees it: primary key,
type metadata name, bound session (by identity) and the per-field cache
slot. -/
structure PInstance where
  pk : Option Nat
  metaName : String
  session : Option Nat
  cache : Option Structure
deriving DecidableEq, Repr

/-- The message of the `StructureFieldError` raised by the proxy, from the
format string in the source. -/
def structureFieldErrorMsg (metaName fieldName : String) : String :=
  "id for " ++ metaName ++
    " is not available. Call save on instance before accessing " ++
    fieldName ++ "."

/-- Modelled from the spec: `backend.basekey` (the backend driver is not
among the supplied sources) builds the canonical remote key from the type's
storage namespace, the literal segment "obj", the primary-key value and the
field name; separators are backend-defined and modelled as ":". -/
def basekey (metaName : String) (pk : Nat) (fieldName : String) : String :=
  metaName ++ ":obj:" ++ toString pk ++ ":" ++ fieldName

/-- Embedding of `StructureFieldProxy.get_structure`: the factory builds a
handle addressed by the basekey of the instance coordinates, bound to the
instance's session. -/
def get_structure (name : String) (inst : PInstance) (pk : Nat) : Structure :=
  ⟨basekey inst.metaName pk name, inst.session⟩

/-- Embedding of `StructureFieldProxy.__get__` for an instance access (the
class-level access, which returns the proxy object itself, is omitted).
Returns the outcome together with the instance as the access leaves it: a
raise leaves it untouched; a cached handle bound to a stale session is
re-associated with the instance's current session; on a cache miss the
handle is constructed and cached. -/
def proxy_get (name : String) (inst : PInstance) :
    Except String Structure × PInstance :=
  match inst.pk with
  | none => (Except.error (structureFieldErrorMsg inst.metaName name), inst)
  | some pk =>
    match inst.cache with
    | some cv =>
      if cv.session ≠ inst.session ∧ inst.session.isSome then
        let cv2 : Structure := ⟨cv.key, inst.session⟩
        (Except.ok cv2, { inst with cache := some cv2 })
      else (Except.ok cv, inst)
    | none =>
      let s := get_structure name inst pk
      (Except.ok s, { inst with cache := some s })

/-- A concrete never-saved instance (no primary key, no session, empty
cache slot). -/
def instEx : PInstance := ⟨none, "searchengine.word", none, none⟩

/-- The four field options forced by structured fields. -/
structure FieldFlags where
  required : Bool
  unique : Bool
  index : Bool
  primary_key : Bool
deriving DecidableEq, Repr

/-- Modelled from the spec: the base `Field` initializer
(`stdnet.orm.fields` is not among the supplied sources) records the options
the caller passes. -/
def Field_init (required unique index primary_key : Bool) : FieldFlags :=
  ⟨required, unique, index, primary_key⟩

/-- Embedding of `StructureField.__init__`: the base initializer is called
with `required` forced to false and the remaining caller options forwarded,
then `index`, `unique` and `primary_key` are overwritten with false. -/
def StructureField_init (required unique index primary_key : Bool) : FieldFlags :=
  let f := Field_init false unique index primary_key
  { f with index := false, unique := false, primary_key := false }

/-- `SetField` inherits `StructureField.__init__` unchanged. -/
def SetField_init : Bool → Bool → Bool → Bool → FieldFlags := StructureField_init

/-- `ListField` inherits `StructureField.__init__` unchanged. -/
def ListField_init : Bool → Bool → Bool → Bool → FieldFlags := StructureField_init

/-- `HashField` inherits `StructureField.__init__` unchanged. -/
def HashField_init : Bool → Bool → Bool → Bool → FieldFlags := StructureField_init

/-- `TimeSeriesField` inherits `StructureField.__init__` unchanged. -/
def TimeSeriesField_init : Bool → Bool → Bool → Bool → FieldFlags := StructureField_init

/-- `StringField` inherits `StructureField.__init__` unchanged. -/
def StringField_init : Bool → Bool → Bool → Bool → FieldFlags := StructureField_init

/-- The exception classes of `stdnet/exceptions.py`, plus the Python
`Exception` root they ultimately derive from. -/
inductive ExcClass
  | Exception
  | StdNetException
  | SessionNotAvailable
  | ModelNotAvailable
  | ModelNotRegistered
  | InvalidTransaction
  | CommitException
  | AlreadyRegistered
  | ObjectNotValidated
  | ImproperlyConfigured
  | BadCacheDataStructure
  | FieldError
  | StructureFieldError
  | FieldValueError
  | QuerySetError
  | ObjectNotFound
deriving DecidableEq, Repr

/-- The direct base class of each exception class, exactly as written in
`stdnet/exceptions.py`. -/
def parentOf : ExcClass → Option ExcClass
  | .Exception => none
  | .StdNetException => some .Exception
  | .SessionNotAvailable => some .StdNetException
  | .ModelNotAvailable => some .StdNetException
  | .ModelNotRegistered => some .SessionNotAvailable
  | .InvalidTransaction => some .StdNetException
  | .CommitException => some .StdNetException
  | .AlreadyRegistered => some .StdNetException
  | .ObjectNotValidated => some .StdNetException
  | .ImproperlyConfigured => some .StdNetException
  | .BadCacheDataStructure => some .StdNetException
  | .FieldError => some .StdNetException
  | .StructureFieldError => some .StdNetException
  | .FieldValueError => some .FieldError
  | .QuerySetError => some .StdNetException
  | .ObjectNotFound => some .QuerySetError

/-- Reflexive-transitive subclass relation along `parentOf`, fuel-bounded by
more than the number of classes. -/
def isSubclass : Nat → ExcClass → ExcClass → Bool
  | 0, _, _ => false
  | fuel + 1, c, d =>
    c == d ||
      match parentOf c with
      | some p => isSubclass fuel p d
      | none => false

/-- `c` is `d` or derives (transitively) from `d`. -/
def subclassOf (c d : ExcClass) : Bool := isSubclass 20 c d

/-- A Python `except D:` handler catches a raised instance of class `c`
exactly when `c` is a subclass of `D`. -/
def catches (handler raised : ExcClass) : Bool := subclassOf raised handler

end StdNet

namespace StdNet

/-- C5: with default settings (minimum word length 3, default punctuation
splitters), `split_text` maps "Hello, World! foo a" to
["hello", "world", "foo"]: punctuation becomes whitespace, short tokens are
dropped, survivors are lower-cased in left-to-right order. -/
theorem split_text_hello_world :
    split_text PUNCTUATION_CHARS 3 "Hello, World! foo a".toList =
      ["hello", "world", "foo"] := by
  decide

/-- C3: when the search text normalizes to an empty token set, `search_model`
returns the original query unchanged — not an empty result and not an
error. -/
theorem search_model_empty_tokens (db : DB) (q : Query) (lookup : String) :
    search_model db q [] lookup = Except.ok q.ids := by
  rfl

theorem mem_foldl_inter (rest : List (Finset ℕ)) (a : Finset ℕ) (x : ℕ) :
    x ∈ rest.foldl (fun u v => u ∩ v) a ↔ x ∈ a ∧ ∀ s ∈ rest, x ∈ s := by
  induction rest generalizing a with
  | nil => simp
  | cons b bs ih => simp [ih, Finset.mem_inter, and_assoc]

theorem mem_foldl_union (rest : List (Finset ℕ)) (a : Finset ℕ) (x : ℕ) :
    x ∈ rest.foldl (fun u v => u ∪ v) a ↔ x ∈ a ∨ ∃ s ∈ rest, x ∈ s := by
  induction rest generalizing a with
  | nil => simp
  | cons b bs ih => simp [ih, Finset.mem_union, or_assoc]

theorem mem_ormIntersect (qs : List (Finset ℕ)) (h : qs ≠ []) (x : ℕ) :
    x ∈ ormIntersect qs ↔ ∀ s ∈ qs, x ∈ s := by
  cases qs with
  | nil => exact absurd rfl h
  | cons a rest => simp [ormIntersect, mem_foldl_inter, and_comm]

theorem mem_ormUnion (qs : List (Finset ℕ)) (h : qs ≠ []) (x : ℕ) :
    x ∈ ormUnion qs ↔ ∃ s ∈ qs, x ∈ s := by
  cases qs with
  | nil => exact absurd rfl h
  | cons a rest => simp [ormUnion, mem_foldl_union]

/-- C1: when the token list matches at least two stored words, `search_model`
builds one sub-query per matched word (the object ids of that word's postings
for the query's model), combines them by intersection for lookup "in" and by
union for lookup "contains", and intersects the combination with the original
query's id set. -/
theorem search_model_multi (db : DB) (q : Query) (texts : List String)
    (h : 2 ≤ (matched db texts).length) :
    ∃ rin rcon,
      search_model db q texts "in" = Except.ok rin ∧
      search_model db q texts "contains" = Except.ok rcon ∧
      (∀ x, x ∈ rin ↔
        x ∈ q.ids ∧ ∀ w ∈ matched db texts, x ∈ postings db q.model w.id) ∧
      (∀ x, x ∈ rcon ↔
        x ∈ q.ids ∧ ∃ w ∈ matched db texts, x ∈ postings db q.model w.id) := by
  by_cases he : texts.isEmpty
  · exfalso
    simp [matched, words, he] at h
  · have hw : words db texts =
        some (db.words.filter (fun w => texts.contains w.id)) := by
      simp [words, he]
    have hm : matched db texts = db.words.filter (fun w => texts.contains w.id) := by
      simp [matched, hw]
    set ws := db.words.filter (fun w => texts.contains w.id) with hws
    set qs := ws.map (fun w => postings db q.model w.id) with hqs
    have hlen : 1 < qs.length := by
      have := h
      rw [hm] at this
      simpa [hqs] using this
    have hqsne : qs ≠ [] := by
      intro hnil
      rw [hnil] at hlen
      simp at hlen
    have hwsne : ws.isEmpty = false := by
      cases hcase : ws with
      | nil =>
        rw [hcase] at hqs
        exact absurd (by simp [hqs]) hqsne
      | cons a rest => simp [hcase]
    refine ⟨q.ids ∩ ormIntersect qs, q.ids ∩ ormUnion qs, ?_, ?_, ?_, ?_⟩
    · simp only [search_model, hw, hwsne, ← hqs]
      simp [hlen]
    · simp only [search_model, hw, hwsne, ← hqs]
      simp [hlen]
    · intro x
      rw [Finset.mem_inter, mem_ormIntersect qs hqsne x, hm]
      simp [hqs]
    · intro x
      rw [Finset.mem_inter, mem_ormUnion qs hqsne x, hm]
      simp [hqs]

/-- Witness for C1 at a concrete database, query and token pair. -/
theorem search_model_multi_witness :
    2 ≤ (matched dbEx ["cat", "dog"]).length ∧
      (∃ rin rcon,
        search_model dbEx qEx ["cat", "dog"] "in" = Except.ok rin ∧
        search_model dbEx qEx ["cat", "dog"] "contains" = Except.ok rcon ∧
        (∀ x, x ∈ rin ↔
          x ∈ qEx.ids ∧ ∀ w ∈ matched dbEx ["cat", "dog"],
            x ∈ postings dbEx qEx.model w.id) ∧
        (∀ x, x ∈ rcon ↔
          x ∈ qEx.ids ∧ ∃ w ∈ matched dbEx ["cat", "dog"],
            x ∈ postings dbEx qEx.model w.id)) :=
  ⟨by decide, search_model_multi dbEx qEx ["cat", "dog"] (by decide)⟩

/-- C2: with two matched words and a lookup value that is neither "in" nor
"contains", the source line `raise valueError(...)` evaluates an undefined
name, so the call surfaces a `NameError` — not the invalid-argument
`ValueError` the documentation promises. -/
theorem search_model_invalid_lookup :
    search_model dbEx qEx ["cat", "dog"] "startswith" =
      Except.error (PyError.nameError "valueError") := by
  rfl

/-- C9: when tokens exist but none matches a stored word, `search_model`
returns an empty query (the empty id set), not the original query and not an
error. -/
theorem search_model_no_match (db : DB) (q : Query) (texts : List String)
    (lookup : String) (h1 : texts ≠ [])
    (h2 : ∀ w ∈ db.words, w.id ∉ texts) :
    search_model db q texts lookup = Except.ok ∅ := by
  have he : texts.isEmpty = false := by
    cases texts with
    | nil => exact absurd rfl h1
    | cons a rest => simp
  have hfilter : db.words.filter (fun w => texts.contains w.id) = [] := by
    rw [List.filter_eq_nil_iff]
    intro w hwmem
    simpa using h2 w hwmem
  have hw : words db texts = some [] := by
    unfold words
    rw [if_neg]
    · rw [hfilter]
    · simp [he]
  simp [search_model, hw]

/-- Witness for C9 at a concrete database, query and token list. -/
theorem search_model_no_match_witness :
    ((["fox"] : List String) ≠ [] ∧ (∀ w ∈ dbEx.words, w.id ∉ (["fox"] : List String))) ∧
      search_model dbEx qEx ["fox"] "in" = Except.ok ∅ :=
  ⟨⟨by decide, by decide⟩,
    search_model_no_match dbEx qEx ["fox"] "in" (by decide) (by decide)⟩

/-- C4: the upsert contract of `get_or_create`: an existing word is promoted
to tag status and persisted immediately when `tag` is requested and its flag
is still false; an existing word needing no promotion is returned with no
state change; a missing word is constructed with the requested flag and
either staged on the supplied session without being persisted or, with no
session, saved immediately. -/
theorem get_or_create_contract (db : List Word) (session : Option (List Word))
    (wordId : String) (tag : Bool) :
    (∀ w, db.find? (fun v => v.id == wordId) = some w →
      ((tag && !w.tag) = true →
        get_or_create db session wordId tag =
          ⟨⟨w.id, true⟩,
            db.map (fun v => if v.id == wordId then ⟨w.id, true⟩ else v),
            session⟩) ∧
      ((tag && !w.tag) = false →
        get_or_create db session wordId tag = ⟨w, db, session⟩)) ∧
    (db.find? (fun v => v.id == wordId) = none →
      (∀ s, session = some s →
        get_or_create db session wordId tag =
          ⟨⟨wordId, tag⟩, db, some (s ++ [⟨wordId, tag⟩])⟩) ∧
      (session = none →
        get_or_create db session wordId tag =
          ⟨⟨wordId, tag⟩, db ++ [⟨wordId, tag⟩], none⟩)) := by
  constructor
  · intro w hfind
    constructor
    · intro htag
      simp [get_or_create, hfind, htag]
    · intro htag
      simp [get_or_create, hfind, htag]
  · intro hfind
    constructor
    · intro s hs
      simp [get_or_create, hfind, hs]
    · intro hs
      simp [get_or_create, hfind, hs]

/-- Witness for C4: promoting the existing plain word "redis" with a tag
request and no session flips the flag and persists immediately. -/
theorem get_or_create_contract_witness :
    (List.find? (fun v => v.id == "redis") [⟨"redis", false⟩] =
        some (⟨"redis", false⟩ : Word) ∧
      (true && !(false : Bool)) = true) ∧
    get_or_create [⟨"redis", false⟩] none "redis" true =
      ⟨⟨"redis", true⟩, [⟨"redis", true⟩], none⟩ :=
  ⟨⟨by decide, by decide⟩,
    ((get_or_create_contract [⟨"redis", false⟩] none "redis" true).1
      ⟨"redis", false⟩ (by decide)).1 (by decide)⟩

/-- C6: reading a structured-field attribute on an instance with no assigned
primary key raises `StructureFieldError` with a message naming the field,
and the failed access leaves the instance — in particular its cache slot —
unchanged, creating no structure handle. -/
theorem proxy_get_unsaved (name : String) (inst : PInstance)
    (h : inst.pk = none) :
    proxy_get name inst =
      (Except.error (structureFieldErrorMsg inst.metaName name), inst) ∧
    (∃ pre post, structureFieldErrorMsg inst.metaName name = pre ++ name ++ post) ∧
    (proxy_get name inst).2.cache = inst.cache := by
  refine ⟨?_, ⟨"id for " ++ inst.metaName ++
      " is not available. Call save on instance before accessing ", ".", rfl⟩, ?_⟩
  · simp [proxy_get, h]
  · simp [proxy_get, h]

/-- Witness for C6 on a concrete never-saved instance. -/
theorem proxy_get_unsaved_witness :
    instEx.pk = none ∧
      (proxy_get "messages" instEx =
        (Except.error (structureFieldErrorMsg instEx.metaName "messages"), instEx) ∧
      (∃ pre post,
        structureFieldErrorMsg instEx.metaName "messages" =
          pre ++ "messages" ++ post) ∧
      (proxy_get "messages" instEx).2.cache = instEx.cache) :=
  ⟨rfl, proxy_get_unsaved "messages" instEx rfl⟩

/-- C7: whatever option values the caller passes, `StructureField.__init__`
— inherited unchanged by `SetField`, `ListField`, `HashField`,
`TimeSeriesField` and `StringField` — leaves the field non-required,
non-unique, non-indexed and not a primary key. -/
theorem structureField_forced_flags (required unique index primary_key : Bool) :
    StructureField_init required unique index primary_key =
      ⟨false, false, false, false⟩ ∧
    SetField_init required unique index primary_key =
      ⟨false, false, false, false⟩ ∧
    ListField_init required unique index primary_key =
      ⟨false, false, false, false⟩ ∧
    HashField_init required unique index primary_key =
      ⟨false, false, false, false⟩ ∧
    TimeSeriesField_init required unique index primary_key =
      ⟨false, false, false, false⟩ ∧
    StringField_init required unique index primary_key =
      ⟨false, false, false, false⟩ :=
  ⟨rfl, rfl, rfl, rfl, rfl, rfl⟩

/-- C8: in the code `StructureFieldError` derives directly from
`StdNetException`, not from `FieldError`: a `FieldError` handler does not
catch it (while it does catch `FieldValueError`), contradicting the class's
own docstring and the spec's taxonomy table. -/
theorem structureFieldError_not_under_fieldError :
    parentOf ExcClass.StructureFieldError = some ExcClass.StdNetException ∧
    catches ExcClass.FieldError ExcClass.StructureFieldError = false ∧
    catches ExcClass.FieldError ExcClass.FieldValueError = true ∧
    catches ExcClass.StdNetException ExcClass.StructureFieldError = true := by
  decide

theorem get_or_create_word_id (db : List Word) (session : Option (List Word))
    (wordId : String) (tag : Bool) :
    (get_or_create db session wordId tag).word.id = wordId := by
  unfold get_or_create
  cases hfind : db.find? (fun w => w.id == wordId) with
  | none => cases session <;> simp
  | some w =>
    have hid : w.id = wordId := by simpa using List.find?_some hfind
    by_cases htag : (tag && !w.tag) = true
    · simp [htag, hid]
    · simp [htag, hid]

theorem find?_append_singleton {α} (p : α → Bool) (l : List α) (x : α)
    (h : l.find? p = none) (hx : p x = true) :
    (l ++ [x]).find? p = some x := by
  induction l with
  | nil => simp [List.find?, hx]
  | cons a as ih =>
    rw [List.find?_eq_none] at h
    have hpa : p a = false := by
      have := h a (by simp)
      simpa using this
    rw [List.cons_append, List.find?_cons_of_neg _ (by simp [hpa])]
    exact ih (List.find?_eq_none.mpr (fun y hy => h y (by simp [hy])))

theorem find?_map_replace (wordId : String) (w2 : Word)
    (h2 : (w2.id == wordId) = true) (l : List Word) (w : Word)
    (h : l.find? (fun v => v.id == wordId) = some w) :
    (l.map (fun v => if v.id == wordId then w2 else v)).find?
      (fun v => v.id == wordId) = some w2 := by
  induction l with
  | nil => simp at h
  | cons a as ih =>
    by_cases hpa : (a.id == wordId) = true
    · rw [List.map_cons]
      rw [List.find?_cons_of_pos _ (by simp [hpa, h2])]
      simp [hpa]
    · rw [List.find?_cons_of_neg _ (by simp [hpa])] at h
      rw [List.map_cons]
      rw [List.find?_cons_of_neg _ (by simp [hpa])]
      exact ih h

theorem goc_found_eq (db : List Word) (session : Option (List Word))
    (wordId : String) (tag : Bool) (w : Word)
    (hfind : db.find? (fun v => v.id == wordId) = some w) :
    get_or_create db session wordId tag =
      if tag && !w.tag then
        ⟨⟨w.id, true⟩,
          db.map (fun v => if v.id == wordId then ⟨w.id, true⟩ else v),
          session⟩
      else ⟨w, db, session⟩ := by
  unfold get_or_create
  rw [hfind]

theorem goc_missing_eq (db : List Word) (wordId : String) (tag : Bool)
    (hfind : db.find? (fun v => v.id == wordId) = none) :
    get_or_create db none wordId tag =
      ⟨⟨wordId, tag⟩, db ++ [⟨wordId, tag⟩], none⟩ := by
  unfold get_or_create
  rw [hfind]

theorem goc_none_findable (db : List Word) (wordId : String) (tag : Bool) :
    ∃ w, (get_or_create db none wordId tag).db.find?
      (fun v => v.id == wordId) = some w := by
  cases hfind : db.find? (fun w => w.id == wordId) with
  | none =>
    refine ⟨⟨wordId, tag⟩, ?_⟩
    rw [goc_missing_eq db wordId tag hfind]
    exact find?_append_singleton _ db _ hfind (by simp)
  | some w =>
    have hid : w.id = wordId := by simpa using List.find?_some hfind
    by_cases htag : (tag && !w.tag) = true
    · refine ⟨⟨w.id, true⟩, ?_⟩
      rw [goc_found_eq db none wordId tag w hfind, if_pos htag]
      exact find?_map_replace wordId ⟨w.id, true⟩ (by simp [hid]) db w hfind
    · refine ⟨w, ?_⟩
      rw [goc_found_eq db none wordId tag w hfind, if_neg htag]
      exact hfind

theorem link_item_and_word_spec (st : EngineState) (item : Item)
    (wordId : String) (count : Nat) (tag : Bool) :
    (link_item_and_word st item wordId count tag).1.sessionItems =
      st.sessionItems ∧
    (link_item_and_word st item wordId count tag).2 =
      ⟨wordId, item.model_type, item.oid, count⟩ := by
  refine ⟨rfl, ?_⟩
  simp [link_item_and_word, get_or_create_word_id]

theorem link_found_tag_false (st : EngineState) (item : Item)
    (wordId : String) (count : Nat) (w : Word)
    (hfind : st.dbWords.find? (fun v => v.id == wordId) = some w) :
    (link_item_and_word st item wordId count false).1 = st := by
  unfold link_item_and_word get_or_create
  rw [hfind]
  simp

theorem add_tag_sessions (item : Item) (st : EngineState) (tokens : List String) :
    (add_tag item st tokens).1.sessionWords = st.sessionWords ∧
    (add_tag item st tokens).1.sessionItems = st.sessionItems := by
  induction tokens generalizing st with
  | nil => exact ⟨rfl, rfl⟩
  | cons tok rest ih =>
    obtain ⟨w, hfind⟩ := goc_none_findable st.dbWords tok true
    have hrid : (get_or_create st.dbWords none tok true).word.id = tok :=
      get_or_create_word_id st.dbWords none tok true
    have hstep : (link_item_and_word
        { st with dbWords := (get_or_create st.dbWords none tok true).db }
        item (get_or_create st.dbWords none tok true).word.id 1 false).1 =
        { st with dbWords := (get_or_create st.dbWords none tok true).db } := by
      apply link_found_tag_false
      rw [hrid]
      exact hfind
    simp only [add_tag, hstep]
    exact ih { st with dbWords := (get_or_create st.dbWords none tok true).db }

/-- C10 amended: `add_tag` stages nothing on the unit of work — the staged
words and staged postings are unchanged, because a fresh tagged word is
persisted immediately by the session-less `get_or_create` call and the
postings are only collected into the returned list — while `add_item` adds
every posting it constructs to the supplied unit of work. -/
theorem add_tag_add_item_frame (item : Item) (st : EngineState)
    (tokens : List String) (wcs : List (String × Nat)) :
    (add_tag item st tokens).1.sessionWords = st.sessionWords ∧
    (add_tag item st tokens).1.sessionItems = st.sessionItems ∧
    (add_item item st wcs).sessionItems =
      st.sessionItems ++
        wcs.map (fun wc => (⟨wc.1, item.model_type, item.oid, wc.2⟩ : WordItem)) := by
  refine ⟨(add_tag_sessions item st tokens).1, (add_tag_sessions item st tokens).2, ?_⟩
  induction wcs generalizing st with
  | nil => simp [add_item]
  | cons wc rest ih =>
    simp only [add_item]
    rw [ih]
    simp [(link_item_and_word_spec st item wc.1 wc.2 false).1,
      (link_item_and_word_spec st item wc.1 wc.2 false).2]

/-- C10 counterexample: for a fresh word, `add_tag` persists the new
tag-flagged Word directly to the store (the session-less `get_or_create`
call saves it immediately); nothing is staged on the item's bound
session. -/
theorem add_tag_persists_without_session :
    (add_tag ⟨"M", 7⟩ ⟨[], [], []⟩ ["news"]).1 =
      ⟨[⟨"news", true⟩], [], []⟩ ∧
    (add_tag ⟨"M", 7⟩ ⟨[], [], []⟩ ["news"]).2 =
      [⟨"news", "M", 7, 1⟩] := by
  decide

end StdNet
